import Mathlib

/-!
Verification development for the analysis-orchestration backend
(`services/analysis_service.py`, `ai/peer_matcher.py`, `ai/insights_generator.py`,
`ai/peer_insights_generator.py`).

Conventions of the shallow embedding:
* Python dicts with a fixed key set become structures; keys the embedded code
  never reads are omitted.
* Follower counts and similar metrics are `Nat`; Python float arithmetic
  (`0.8 * followers`, ratios, score components) is modelled exactly in `ℚ`.
* Timestamps are `Int`, measured in hours (the code only compares them and adds
  the 6h / 24h TTL constants).
* The two external services (Grok completion API, Twitter data API) and the two
  repository modules that live outside this tree (`data/user_profiler.py`,
  `data/twitter_client.py`) are an explicit environment `Env` of oracle
  functions; `Except Unit` results model calls that can raise.
* SQLAlchemy sessions (autocommit off, autoflush off) are modelled as a durable
  database plus pending inserts; `commit` publishes pending rows, `rollback`
  discards them.  Queries read the durable part only.
* Prompt text, logging and Python number formatting are not observable by any
  claim; interpolated strings stand in for the formatted messages.
-/

/-- ASCII lowercasing of a string, character by character; models Python
`str.lower()` on the ASCII handles and niche labels this code manipulates.
(Defined by structural `List Char` recursion so that it evaluates in the
kernel, unlike `String.toLower`.) -/
def pyLower (s : String) : String := ⟨s.data.map Char.toLower⟩

/-- Models Python `h.replace('@', '')`: removes every `@` character. -/
def pyStripAt (s : String) : String := ⟨s.data.filter (fun c => c != '@')⟩

/-- Models Python `str.strip()`: drops leading and trailing whitespace. -/
def pyStrip (s : String) : String :=
  ⟨((s.data.dropWhile Char.isWhitespace).reverse.dropWhile Char.isWhitespace).reverse⟩

/-- Models the Python substring test `needle in hay` on strings. -/
def containsSub (hay needle : String) : Bool :=
  hay.data.tails.any (fun t => needle.data.isPrefixOf t)

/-- JSON values, as returned by the completion service's `complete_json`. -/
inductive Json where
  | null
  | bool (b : Bool)
  | num (q : ℚ)
  | str (s : String)
  | arr (elems : List Json)
  | obj (fields : List (String × Json))

/-- Key lookup on a JSON object (`response['k']` / `'k' in response`);
`none` on non-objects and absent keys. -/
def Json.getKey? : Json → String → Option Json
  | .obj fields, k => fields.lookup k
  | _, _ => none

/-- The `grok_profile` sub-dict of a profile: the structured-analysis blob
produced by the completion service.  Only the keys the embedded code reads are
modelled; Python `dict.get` defaults are the field defaults. -/
structure GrokProfile where
  primary_niche : String := ""
  secondary_topics : List String := []
  estimated_monthly_follower_growth_percent : ℚ := 0
  posting_frequency_per_week : ℚ := 0
  visual_content_ratio : String := "medium"

/-- The `basic_metrics` sub-dict of a profile. -/
structure BasicMetrics where
  followers_count : Nat
  following_count : Nat := 0
  tweet_count : Nat := 0

/-- A tweet record from the Twitter API; only its presence (list length) and
identity matter to the embedded code, the text/metrics feed prompts only. -/
structure Tweet where
  text : String := ""

/-- Result of `PeerInsightsGenerator.analyze_peer` (shape of the JSON the
per-peer completion call returns, plus the attached example tweets). -/
structure PeerInsights where
  unique_characteristics : List String := []
  tactical_insights : List String := []
  example_tweets : List Tweet := []

/-- A profile dict as passed around the service: both the subject's
`user_profile_data` and each validated peer's profile share this shape.
`engagement_rate` models `engagement_baseline['engagement_rate']` and
`growth_30d` models `growth_velocity['estimated_30d_growth']`. -/
structure ProfileData where
  handle : String
  basic_metrics : BasicMetrics
  grok_profile : GrokProfile
  niche : String := ""
  content_style : Json := .obj []
  engagement_rate : ℚ := 0
  growth_30d : ℚ := 0
  db_id : Option Nat := none
  match_score : ℚ := 0
  match_reason : String := ""
  growth_edge : String := ""
  peer_insights : Option PeerInsights := none

/-- Raw user record from `twitter_client.get_user_by_handle`
(`user_data['public_metrics']`). -/
structure UserData where
  followers_count : Nat

/-- Errors of the embedded service (the spec's error taxonomy):
`notFound` is the `ValueError("User ... not found")`, `externalError` covers
`GrokAPIError` / transport failures, `validationError` is the
`ValueError("Invalid response structure from Grok")` raised when a completion
response fails `_validate_response`. -/
inductive Err where
  | notFound
  | externalError
  | validationError
deriving DecidableEq

/-- The environment of external collaborators.  Each field is one oracle the
embedded code calls; `Except Unit` models a call that may raise.
`analyzeGrok` and `analyzeUserFromHandle` stand for `UserProfiler`
(`data/user_profiler.py`, outside this tree).  Modelled from the spec:
the Profile Builder turns the handle being profiled plus its raw metrics and
recent posts into a normalized Account Profile whose identity is that handle
and whose raw metrics are the fetched ones; the completion-service part of its
output (the `grok_profile` blob) is the oracle's value. -/
structure Env where
  /-- Grok suggestion call in `_get_peer_suggestions_from_grok`: receives the
  subject profile, the requested count and the exclusion list (prompt
  content), returns `response.get('handles', [])`. -/
  suggest : ProfileData → Nat → List String → Except Unit (List String)
  /-- `twitter_client.get_user_by_handle`; `none` covers both an unknown
  handle and a transport failure (the latter is caught by the per-candidate
  `except` and has the same skip effect). -/
  getUserByHandle : String → Option UserData
  /-- `twitter_client.get_user_tweets handle max_results`. -/
  getUserTweets : String → Nat → List Tweet
  /-- completion-service part of `UserProfiler.analyze_user` for a peer
  candidate; an error is the raised exception the validation loop catches. -/
  analyzeGrok : String → UserData → List Tweet → Except Unit GrokProfile
  /-- `UserProfiler.analyze_user_from_handle` for the subject (fresh profile
  build, step 2 of the orchestration). -/
  analyzeUserFromHandle : String → Except Unit ProfileData
  /-- per-peer insight completion call in `_generate_peer_insights`. -/
  peerGrok : ProfileData → ProfileData → List Tweet → Except Unit PeerInsights
  /-- `complete_json` for insight synthesis (`_generate_deep_analysis`);
  receives the subject profile and the first-5 peer slice that feed the
  prompt. -/
  insightsJson : ProfileData → List ProfileData → Nat → Except Unit Json

/-! ## `ai/peer_matcher.py` -/

/-- `PeerMatcher._calculate_match_score`. -/
def calculate_match_score (user_profile peer_profile : ProfileData) : ℚ :=
  let user_grok := user_profile.grok_profile
  let peer_grok := peer_profile.grok_profile
  let user_niche := pyLower user_grok.primary_niche
  let peer_niche := pyLower peer_grok.primary_niche
  let s1 : ℚ := if containsSub peer_niche user_niche || containsSub user_niche peer_niche then 40 else 0
  let overlap : Nat :=
    ((user_grok.secondary_topics.dedup).filter
      (fun t => peer_grok.secondary_topics.contains t)).length
  let s2 : ℚ := min ((overlap : ℚ) * 10) 30
  let user_followers := user_profile.basic_metrics.followers_count
  let peer_followers := peer_profile.basic_metrics.followers_count
  let ratio : ℚ := if 0 < user_followers then (peer_followers : ℚ) / (user_followers : ℚ) else 1
  let s3 : ℚ :=
    if 0.8 ≤ ratio ∧ ratio ≤ 2.0 then 20
    else if 0.5 ≤ ratio ∧ ratio ≤ 3.0 then 10
    else 0
  let peer_growth := peer_grok.estimated_monthly_follower_growth_percent
  let s4 : ℚ := if 5 < peer_growth then 10 else if 2 < peer_growth then 5 else 0
  min (s1 + s2 + s3 + s4) 100

/-- `PeerMatcher._generate_match_reason` (number formatting abstracted by
`toString`). -/
def generate_match_reason (user_profile peer_profile : ProfileData) : String :=
  let user_followers := user_profile.basic_metrics.followers_count
  let peer_followers := peer_profile.basic_metrics.followers_count
  let d : ℚ :=
    if 0 < user_followers then
      ((peer_followers : ℚ) - (user_followers : ℚ)) / (user_followers : ℚ) * 100
    else 0
  let g := peer_profile.grok_profile.estimated_monthly_follower_growth_percent
  s!"Same niche, {d}% more followers, {g}% monthly growth"

/-- `PeerMatcher._generate_growth_edge` (number formatting abstracted). -/
def generate_growth_edge (peer_profile : ProfileData) : String :=
  let w := peer_profile.grok_profile.posting_frequency_per_week
  let v := peer_profile.grok_profile.visual_content_ratio
  s!"Posts {w}x/week with {v} visual content"

/-- The static `niche_accounts` fallback table of
`PeerMatcher._get_fallback_suggestions`, in dict insertion order. -/
def niche_accounts : List (String × List String) :=
  [("finance", ["markets", "WSJ", "financialtimes", "zerohedge", "ReformedTrader",
                "markets", "YahooFinance", "business", "FT", "economics"]),
   ("tech", ["techcrunch", "verge", "WIRED", "Techmeme", "BenedictEvans",
             "arstechnica", "engadget", "TheNextWeb", "ProductHunt"]),
   ("marketing", ["neilpatel", "randfish", "buffer", "hootsuite", "Marketingland",
                  "semrush", "HubSpot", "Unbounce", "copyblogger"]),
   ("ai", ["AndrewYNg", "ylecun", "goodfellow_ian", "hardmaru", "fchollet",
           "karpathy", "lexfridman", "emollick", "sama"]),
   ("business", ["ycombinator", "hnshah", "paulg", "jason", "rrhoover", "naval",
                 "balajis", "patrick_oshag", "BrentBeshore"])]

/-- The `default_accounts` list of `_get_fallback_suggestions`. -/
def default_accounts : List String :=
  ["ycombinator", "paulg", "rrhoover", "naval", "balajis", "jason", "hnshah",
   "sama", "garyvee", "JamesClear"]

/-- `PeerMatcher._get_fallback_suggestions` (the `followers` argument is
accepted and unused, as in the source). -/
def get_fallback_suggestions (niche : String) (followers : Nat)
    (excluded_handles : List String) : List String :=
  let niche_lower := pyLower niche
  match niche_accounts.find? (fun kv => containsSub niche_lower kv.1) with
  | some kv => (kv.2.filter (fun a => !(excluded_handles.contains (pyLower a)))).take 10
  | none => (default_accounts.filter (fun a => !(excluded_handles.contains (pyLower a)))).take 10

/-- The cleaning step `h.replace('@', '').strip().lower()`. -/
def clean_handle (h : String) : String := pyLower (pyStrip (pyStripAt h))

/-- `PeerMatcher._get_peer_suggestions_from_grok`: on a successful completion
call, clean the returned handles and drop excluded ones; on any failure fall
back to the static table. -/
def get_peer_suggestions_from_grok (env : Env) (user_profile : ProfileData)
    (count : Nat) (excluded_handles : List String) : List String :=
  match env.suggest user_profile count excluded_handles with
  | .ok handles =>
      handles.filterMap (fun h =>
        if h != "" && !(excluded_handles.contains (clean_handle h)) then
          some (clean_handle h)
        else none)
  | .error _ =>
      get_fallback_suggestions user_profile.grok_profile.primary_niche
        user_profile.basic_metrics.followers_count excluded_handles

/-- One iteration of the validation loop in `find_peers`, for candidate `h`:
fetch real data, apply the follower window, require at least 5 tweets, build
the peer profile and attach score/reason/edge.  `none` is the loop's
`continue` (including the `except` catch). -/
def validate_candidate (env : Env) (user_profile : ProfileData) (h : String) :
    Option ProfileData :=
  match env.getUserByHandle h with
  | none => none
  | some user_data =>
    let followers := user_data.followers_count
    let user_followers := user_profile.basic_metrics.followers_count
    if (followers : ℚ) < (user_followers : ℚ) * 0.8 ∨
        (user_followers : ℚ) * 3 < (followers : ℚ) then none
    else
      let tweets := env.getUserTweets h 20
      if tweets.length < 5 then none
      else
        match env.analyzeGrok h user_data tweets with
        | .error _ => none
        | .ok g =>
          let peer_profile : ProfileData :=
            { handle := h
              basic_metrics := { followers_count := user_data.followers_count }
              grok_profile := g }
          some { peer_profile with
                 match_score := calculate_match_score user_profile peer_profile
                 match_reason := generate_match_reason user_profile peer_profile
                 growth_edge := generate_growth_edge peer_profile }

/-- The collection loop of `find_peers` step 3: validate candidates in list
order, appending survivors, and break as soon as `count ≤` the number
collected (checked after each append); `k` is the number collected so far. -/
def collectValidated (v : String → Option ProfileData) (count : Nat) :
    List String → Nat → List ProfileData
  | [], _ => []
  | h :: t, k =>
    match v h with
    | none => collectValidated v count t k
    | some p => if count ≤ k + 1 then [p] else p :: collectValidated v count t (k + 1)

/-- Stable insertion of a peer into a list sorted by descending match score:
existing entries with strictly greater score stay in front, so equal scores
keep their original order — the behavior of Python's stable
`sort(key=score, reverse=True)`. -/
def insert_peer_desc (p : ProfileData) : List ProfileData → List ProfileData
  | [] => [p]
  | q :: t => if p.match_score < q.match_score then q :: insert_peer_desc p t else p :: q :: t

/-- `validated_peers.sort(key=lambda x: x.get('match_score', 0), reverse=True)`:
stable descending sort by match score. -/
def sort_peers_desc (l : List ProfileData) : List ProfileData :=
  l.foldr insert_peer_desc []

/-- Steps 3-5 of `find_peers` on an already-filtered candidate list: collect
validated peers with early stop, return `[]` if none, else sort by descending
score and truncate to `count`. -/
def validate_stage (env : Env) (user_profile : ProfileData) (count : Nat)
    (handles : List String) : List ProfileData :=
  let validated := collectValidated (validate_candidate env user_profile) count handles 0
  if validated.isEmpty then [] else (sort_peers_desc validated).take count

/-- Steps 1-2 of `find_peers`: request `count * 3 + |excluded|` suggestions and
filter out handles whose lowercase form is in the exclusion set. -/
def find_peers_candidates (env : Env) (user_profile : ProfileData) (count : Nat)
    (excluded_handles : List String) : List String :=
  (get_peer_suggestions_from_grok env user_profile (count * 3 + excluded_handles.length)
      excluded_handles).filter
    (fun h => !(excluded_handles.contains (pyLower h)))

/-- `PeerMatcher.find_peers` (the `save_to_db=False` path used by the
service). -/
def find_peers (env : Env) (user_profile : ProfileData) (count : Nat)
    (excluded_handles : List String) : List ProfileData :=
  validate_stage env user_profile count
    (find_peers_candidates env user_profile count excluded_handles)

/-! ## `ai/insights_generator.py` -/

/-- `InsightsGenerator._validate_response`: requires `growth_score` and
`insights` keys, and that the `insights` value is a non-empty list.  The
per-insight title/action check only logs and never fails. -/
def validate_response (response : Json) : Bool :=
  match response.getKey? "growth_score", response.getKey? "insights" with
  | some _, some insights =>
    match insights with
    | .arr xs => !xs.isEmpty
    | _ => false
  | _, _ => false

/-- `InsightsGenerator.generate_insights` / `_generate_deep_analysis`: the
prompt is built from the subject profile and the first five peers; a
completion failure propagates, and a structurally invalid response raises
(`ValueError("Invalid response structure from Grok")`, the spec's
`ValidationError`). -/
def generate_insights (env : Env) (user_profile : ProfileData)
    (peer_profiles : List ProfileData) (num_insights : Nat) : Except Err Json :=
  match env.insightsJson user_profile (peer_profiles.take 5) num_insights with
  | .error _ => .error .externalError
  | .ok response =>
    if validate_response response then .ok response else .error .validationError

/-! ## `ai/peer_insights_generator.py` -/

/-- `PeerInsightsGenerator.analyze_peer` (with `fetch_tweets=True`, as the
service calls it): fetch up to 10 tweets, keep 5; with no tweets return the
numeric-fields-only degraded insights; on a completion failure return empty
lists; otherwise the completion result plus 3 example tweets. -/
def analyze_peer (env : Env) (user_profile peer_profile : ProfileData) : PeerInsights :=
  let tweets := env.getUserTweets peer_profile.handle 10
  let example_tweets := tweets.take 5
  if example_tweets.isEmpty then
    let g := peer_profile.grok_profile.estimated_monthly_follower_growth_percent
    let f := peer_profile.basic_metrics.followers_count
    let w := peer_profile.grok_profile.posting_frequency_per_week
    { unique_characteristics :=
        [s!"Growing at {g}% per month", s!"Has {f} followers", s!"Posts {w}x per week"]
      tactical_insights := []
      example_tweets := [] }
  else
    match env.peerGrok user_profile peer_profile example_tweets with
    | .error _ =>
      { unique_characteristics := [], tactical_insights := [],
        example_tweets := example_tweets.take 3 }
    | .ok insights => { insights with example_tweets := example_tweets.take 3 }

/-! ## Persistence model (`db/models.py` rows, SQLAlchemy session) -/

/-- A `users` row. -/
structure UserRow where
  id : Nat
  x_handle : String

/-- A `user_profiles` row (the 6-hour-TTL profile cache). -/
structure UserProfileRow where
  id : Nat
  user_id : Nat
  followers_count : Nat
  following_count : Nat
  tweet_count : Nat
  grok_profile : GrokProfile
  niche : String
  content_style : Json
  avg_engagement_rate : ℚ
  growth_30d : ℚ
  analyzed_at : Int
  expires_at : Int

/-- A `peer_matches` row.  (`peer_profile`/`peer_insights`/`example_tweets`
columns are omitted: the batch is saved before step 2.5 attaches insights, so
they never influence any claim.) -/
structure PeerMatchRow where
  user_id : Nat
  peer_handle : String
  peer_followers : Nat
  match_score : ℚ
  match_reason : String
  growth_edge : String
  created_at : Int
  expires_at : Int

/-- An `analyses` row. -/
structure AnalysisRow where
  id : Nat
  user_id : Nat
  user_profile_id : Option Nat
  growth_score : ℚ
  insights : Json
  created_at : Int

/-- The durable database state; `nextId` models the id sequence. -/
structure DB where
  users : List UserRow := []
  user_profiles : List UserProfileRow := []
  peer_matches : List PeerMatchRow := []
  analyses : List AnalysisRow := []
  nextId : Nat := 0

/-- An open SQLAlchemy session: durable state plus pending (uncommitted)
inserts.  Queries read `durable` (autoflush is off and the service always
commits before re-reading). -/
structure Session where
  durable : DB
  pendingProfiles : List UserProfileRow := []
  pendingPeers : List PeerMatchRow := []
  pendingAnalyses : List AnalysisRow := []
  nextId : Nat

/-- `get_session_direct()`. -/
def Session.init (db : DB) : Session := { durable := db, nextId := db.nextId }

/-- `session.commit()`: pending inserts become durable. -/
def Session.commit (s : Session) : Session :=
  { durable :=
      { s.durable with
        user_profiles := s.durable.user_profiles ++ s.pendingProfiles
        peer_matches := s.durable.peer_matches ++ s.pendingPeers
        analyses := s.durable.analyses ++ s.pendingAnalyses
        nextId := s.nextId }
    pendingProfiles := []
    pendingPeers := []
    pendingAnalyses := []
    nextId := s.nextId }

/-- `session.rollback()`: pending inserts are discarded; committed state is
untouched. -/
def Session.rollback (s : Session) : Session :=
  { s with pendingProfiles := [], pendingPeers := [], pendingAnalyses := [] }

/-- Stable insertion by strictly-greater `analyzed_at` (descending order). -/
def insert_profile_desc (r : UserProfileRow) : List UserProfileRow → List UserProfileRow
  | [] => [r]
  | q :: t => if r.analyzed_at < q.analyzed_at then q :: insert_profile_desc r t else r :: q :: t

/-- `query(UserProfile).filter_by(user_id=...).order_by(analyzed_at.desc()).first()`. -/
def latest_profile_row (db : DB) (uid : Nat) : Option UserProfileRow :=
  ((db.user_profiles.filter (fun r => r.user_id == uid)).foldr insert_profile_desc []).head?

/-- Stable insertion by strictly-greater `created_at` (descending order). -/
def insert_peer_row_desc (r : PeerMatchRow) : List PeerMatchRow → List PeerMatchRow
  | [] => [r]
  | q :: t => if r.created_at < q.created_at then q :: insert_peer_row_desc r t else r :: q :: t

/-- The peer-match history query of `_get_or_create_peers`:
`filter_by(user_id=...).order_by(created_at.desc()).limit(20).all()`. -/
def previous_peer_rows (db : DB) (uid : Nat) : List PeerMatchRow :=
  ((db.peer_matches.filter (fun r => r.user_id == uid)).foldr insert_peer_row_desc []).take 20

/-- The exclusion set `set(p.peer_handle.lower() for p in previous_peers)`
(as a duplicate-free list). -/
def excluded_handles_for (db : DB) (uid : Nat) : List String :=
  ((previous_peer_rows db uid).map (fun r => pyLower r.peer_handle)).dedup

/-! ## `services/analysis_service.py` -/

/-- The dict built from a cached `UserProfile` row (the cache-hit branch of
`_get_or_create_user_profile`); `cached.content_style or {}` maps a null
column to the empty dict. -/
def profile_from_cache (user : UserRow) (cached : UserProfileRow) : ProfileData :=
  { db_id := some cached.id
    handle := user.x_handle
    basic_metrics :=
      { followers_count := cached.followers_count
        following_count := cached.following_count
        tweet_count := cached.tweet_count }
    grok_profile := cached.grok_profile
    niche := cached.niche
    content_style := match cached.content_style with | .null => .obj [] | j => j
    engagement_rate := cached.avg_engagement_rate
    growth_30d := cached.growth_30d }

/-- The fresh-profile branch of `_get_or_create_user_profile`: build via the
profiler, insert a row with a 6-hour expiry, commit, and return the profile
with its new `db_id`. -/
def build_fresh_profile (env : Env) (now : Int) (s : Session) (user : UserRow) :
    Except Err (ProfileData × Session) :=
  match env.analyzeUserFromHandle user.x_handle with
  | .error _ => .error .externalError
  | .ok profile_data =>
    let row : UserProfileRow :=
      { id := s.nextId
        user_id := user.id
        followers_count := profile_data.basic_metrics.followers_count
        following_count := profile_data.basic_metrics.following_count
        tweet_count := profile_data.basic_metrics.tweet_count
        grok_profile := profile_data.grok_profile
        niche := profile_data.niche
        content_style := profile_data.content_style
        avg_engagement_rate := profile_data.engagement_rate
        growth_30d := profile_data.growth_30d
        analyzed_at := now
        expires_at := now + 6 }
    let s2 := Session.commit
      { s with pendingProfiles := s.pendingProfiles ++ [row], nextId := s.nextId + 1 }
    .ok ({ profile_data with db_id := some row.id }, s2)

/-- `AnalysisService._get_or_create_user_profile`. -/
def get_or_create_user_profile (env : Env) (now : Int) (s : Session)
    (user : UserRow) (force_refresh : Bool) : Except Err (ProfileData × Session) :=
  match (if force_refresh then none else latest_profile_row s.durable user.id) with
  | some cached =>
    if now < cached.expires_at then .ok (profile_from_cache user cached, s)
    else build_fresh_profile env now s user
  | none => build_fresh_profile env now s user

/-- The `PeerMatch` row inserted for one validated peer in
`_get_or_create_peers`. -/
def peer_row_of (uid : Nat) (now : Int) (p : ProfileData) : PeerMatchRow :=
  { user_id := uid
    peer_handle := p.handle
    peer_followers := p.basic_metrics.followers_count
    match_score := p.match_score
    match_reason := p.match_reason
    growth_edge := p.growth_edge
    created_at := now
    expires_at := now + 24 }

/-- `AnalysisService._get_or_create_peers` (the `force_refresh` parameter is
accepted and never read, as in the source).  Returns the fresh peers, the
session after the batch commit, and the exclusion sets passed to the one or
two `find_peers` calls. -/
def get_or_create_peers (env : Env) (now : Int) (s : Session) (user : UserRow)
    (user_profile_data : ProfileData) (force_refresh : Bool) :
    List ProfileData × Session × List (List String) :=
  let excluded := excluded_handles_for s.durable user.id
  let first_try := find_peers env user_profile_data 5 excluded
  let retried :=
    if first_try.isEmpty then (find_peers env user_profile_data 5 [], [excluded, []])
    else (first_try, [excluded])
  let peer_profiles := retried.1
  let s2 := Session.commit
    { s with pendingPeers := s.pendingPeers ++ peer_profiles.map (peer_row_of user.id now) }
  (peer_profiles, s2, retried.2)

/-- `AnalysisService._save_analysis`. -/
def save_analysis (now : Int) (s : Session) (uid : Nat)
    (user_profile : ProfileData) (peer_profiles : List ProfileData)
    (insights_data : Json) : AnalysisRow × Session :=
  let growth_score := user_profile.grok_profile.estimated_monthly_follower_growth_percent
  let row : AnalysisRow :=
    { id := s.nextId
      user_id := uid
      user_profile_id := user_profile.db_id
      growth_score := growth_score
      insights := insights_data
      created_at := now }
  (row, Session.commit
    { s with pendingAnalyses := s.pendingAnalyses ++ [row], nextId := s.nextId + 1 })

/-- The response dict of a successful run (step 5; the per-peer projection
keeps the same record). -/
structure AnalysisResultOut where
  analysis_id : Nat
  user_profile : ProfileData
  peer_profiles : List ProfileData
  insights : Json
  created_at : Int

/-- Observable calls of one run: the exclusion set of each `find_peers`
invocation and the arguments of each `generate_insights` invocation. -/
structure RunTrace where
  sourceCalls : List (List String) := []
  insightsCalls : List (ProfileData × List ProfileData) := []

/-- `AnalysisService.run_full_analysis`: resolve the user, step 1 profile,
step 2 peers, step 2.5 per-peer insights (non-fatal), step 3 insight
synthesis (fatal), step 4 persist the analysis, step 5 build the response.
On any error the session is rolled back and the error propagates; the final
`DB` is the durable state after `close()`. -/
def run_full_analysis (env : Env) (now : Int) (db : DB) (user_id : Nat)
    (force_refresh_profile : Bool) (force_refresh_peers : Bool) :
    Except Err AnalysisResultOut × DB × RunTrace :=
  let s0 := Session.init db
  match db.users.find? (fun u => u.id == user_id) with
  | none => (.error .notFound, (Session.rollback s0).durable, {})
  | some user =>
    match get_or_create_user_profile env now s0 user force_refresh_profile with
    | .error e => (.error e, (Session.rollback s0).durable, {})
    | .ok (user_profile_data, s1) =>
      let step2 := get_or_create_peers env now s1 user user_profile_data force_refresh_peers
      let s2 := step2.2.1
      let peer_profiles := step2.1.map (fun p =>
        { p with peer_insights := some (analyze_peer env user_profile_data p) })
      let trace : RunTrace :=
        { sourceCalls := step2.2.2, insightsCalls := [(user_profile_data, peer_profiles)] }
      match generate_insights env user_profile_data peer_profiles 3 with
      | .error e => (.error e, (Session.rollback s2).durable, trace)
      | .ok analysis_data =>
        let step4 := save_analysis now s2 user.id user_profile_data peer_profiles analysis_data
        (.ok { analysis_id := step4.1.id
               user_profile := user_profile_data
               peer_profiles := peer_profiles
               insights := analysis_data
               created_at := now },
         step4.2.durable, trace)

/-! ## Shared lemmas -/

theorem mem_insert_peer_desc (q : ProfileData) :
    ∀ (l : List ProfileData) (p : ProfileData),
      p ∈ insert_peer_desc q l → p = q ∨ p ∈ l := by
  intro l
  induction l with
  | nil =>
    intro p h
    simpa [insert_peer_desc] using h
  | cons r t ih =>
    intro p h
    by_cases hc : q.match_score < r.match_score
    · simp only [insert_peer_desc, if_pos hc] at h
      rcases List.mem_cons.mp h with h1 | h1
      · exact Or.inr (by simp [h1])
      · rcases ih p h1 with h2 | h2
        · exact Or.inl h2
        · exact Or.inr (List.mem_cons_of_mem _ h2)
    · simp only [insert_peer_desc, if_neg hc] at h
      rcases List.mem_cons.mp h with h1 | h1
      · exact Or.inl h1
      · exact Or.inr h1

theorem insert_peer_desc_perm (q : ProfileData) (l : List ProfileData) :
    List.Perm (insert_peer_desc q l) (q :: l) := by
  induction l with
  | nil => simp [insert_peer_desc]
  | cons r t ih =>
    by_cases hc : q.match_score < r.match_score
    · simp only [insert_peer_desc, if_pos hc]
      exact (ih.cons r).trans (List.Perm.swap q r t)
    · simp only [insert_peer_desc, if_neg hc]
      exact List.Perm.refl _

theorem sort_peers_desc_perm (l : List ProfileData) :
    List.Perm (sort_peers_desc l) l := by
  induction l with
  | nil => simp [sort_peers_desc]
  | cons p t ih =>
    have h1 : sort_peers_desc (p :: t) = insert_peer_desc p (sort_peers_desc t) := rfl
    rw [h1]
    exact (insert_peer_desc_perm p (sort_peers_desc t)).trans (ih.cons p)

theorem insert_peer_desc_pairwise {l : List ProfileData} (p : ProfileData)
    (h : l.Pairwise (fun a b => b.match_score ≤ a.match_score)) :
    (insert_peer_desc p l).Pairwise (fun a b => b.match_score ≤ a.match_score) := by
  induction l with
  | nil => simp [insert_peer_desc]
  | cons q t ih =>
    rcases List.pairwise_cons.mp h with ⟨hq, ht⟩
    by_cases hc : p.match_score < q.match_score
    · simp only [insert_peer_desc, if_pos hc]
      refine List.pairwise_cons.mpr ⟨?_, ih ht⟩
      intro x hx
      rcases mem_insert_peer_desc p t x hx with hx1 | hx1
      · exact hx1 ▸ le_of_lt hc
      · exact hq x hx1
    · simp only [insert_peer_desc, if_neg hc]
      refine List.pairwise_cons.mpr ⟨?_, h⟩
      intro x hx
      rcases List.mem_cons.mp hx with hx1 | hx1
      · exact hx1 ▸ le_of_not_lt hc
      · exact le_trans (hq x hx1) (le_of_not_lt hc)

theorem sort_peers_desc_pairwise (l : List ProfileData) :
    (sort_peers_desc l).Pairwise (fun a b => b.match_score ≤ a.match_score) := by
  induction l with
  | nil => simp [sort_peers_desc]
  | cons p t ih =>
    have h1 : sort_peers_desc (p :: t) = insert_peer_desc p (sort_peers_desc t) := rfl
    rw [h1]
    exact insert_peer_desc_pairwise p ih

theorem collectValidated_eq_take (v : String → Option ProfileData) (count : Nat) :
    ∀ (l : List String) (k : Nat), k < count →
      collectValidated v count l k = (l.filterMap v).take (count - k) := by
  intro l
  induction l with
  | nil =>
    intro k _
    simp [collectValidated]
  | cons h t ih =>
    intro k hk
    simp only [collectValidated, List.filterMap_cons]
    cases hv : v h with
    | none => exact ih k hk
    | some p =>
      by_cases hc : count ≤ k + 1
      · simp only [if_pos hc]
        have hck : count - k = 1 := by omega
        simp [hck]
      · simp only [if_neg hc]
        have hk1 : k + 1 < count := Nat.lt_of_not_le hc
        rw [ih (k + 1) hk1]
        have hsub : count - k = (count - (k + 1)) + 1 := by omega
        rw [hsub, List.take_succ_cons]

theorem collectValidated_zero (v : String → Option ProfileData) :
    ∀ l : List String, collectValidated v 0 l 0 = (l.filterMap v).take 1 := by
  intro l
  induction l with
  | nil => simp [collectValidated]
  | cons h t ih =>
    simp only [collectValidated, List.filterMap_cons]
    cases hv : v h with
    | none => exact ih
    | some p => simp

theorem validate_stage_eq (env : Env) (upd : ProfileData) (count : Nat)
    (handles : List String) :
    validate_stage env upd count handles =
      sort_peers_desc
        ((handles.filterMap (validate_candidate env upd)).take count) := by
  cases count with
  | zero =>
    simp only [validate_stage, collectValidated_zero, List.take_zero]
    cases hfm : (handles.filterMap (validate_candidate env upd)) with
    | nil => simp [hfm, sort_peers_desc]
    | cons p t => simp [hfm, sort_peers_desc]
  | succ n =>
    simp only [validate_stage,
      collectValidated_eq_take (validate_candidate env upd) (n + 1) handles 0 (Nat.succ_pos n),
      Nat.sub_zero]
    cases hfm : (handles.filterMap (validate_candidate env upd)).take (n + 1) with
    | nil => simp [sort_peers_desc]
    | cons p t =>
      simp only [List.isEmpty_cons, Bool.false_eq_true, if_false]
      have hlen : (sort_peers_desc (p :: t)).length ≤ n + 1 := by
        have h1 : (sort_peers_desc (p :: t)).length = (p :: t).length :=
          (sort_peers_desc_perm (p :: t)).length_eq
        have h2 : ((handles.filterMap (validate_candidate env upd)).take (n + 1)).length ≤ n + 1 := by
          simpa using Nat.min_le_left _ _
        rw [h1, ← hfm]
        exact h2
      exact List.take_of_length_le hlen

/-! ## C5: the match-score formula -/

/-- The reference formula for the match score as the spec states it:
40 for a (lowercased) niche substring match either way, `min(overlap × 10, 30)`
for the secondary-topic overlap, 20 / 10 / 0 by follower-ratio bracket with
the ratio defined as 1 when the subject's follower count is 0, 10 / 5 / 0 by
peer monthly growth, capped at 100. -/
def match_score_spec (user_niche peer_niche : String)
    (user_topics peer_topics : List String)
    (subject_followers peer_followers : Nat) (peer_growth : ℚ) : ℚ :=
  let un := pyLower user_niche
  let pn := pyLower peer_niche
  let niche_pts : ℚ := if containsSub pn un || containsSub un pn then 40 else 0
  let overlap : Nat := ((user_topics.dedup).filter (fun t => peer_topics.contains t)).length
  let topic_pts : ℚ := min ((overlap : ℚ) * 10) 30
  let ratio : ℚ :=
    if subject_followers = 0 then 1 else (peer_followers : ℚ) / (subject_followers : ℚ)
  let ratio_pts : ℚ :=
    if 0.8 ≤ ratio ∧ ratio ≤ 2.0 then 20
    else if 0.5 ≤ ratio ∧ ratio ≤ 3.0 then 10
    else 0
  let growth_pts : ℚ := if 5 < peer_growth then 10 else if 2 < peer_growth then 5 else 0
  min (niche_pts + topic_pts + ratio_pts + growth_pts) 100

theorem min_hundred_bounds (a b c d : ℚ) (ha : 0 ≤ a) (hb : 0 ≤ b) (hc : 0 ≤ c)
    (hd : 0 ≤ d) : 0 ≤ min (a + b + c + d) 100 ∧ min (a + b + c + d) 100 ≤ 100 :=
  ⟨le_min (by linarith) (by norm_num), min_le_right _ _⟩

/-- C5: for all subject and peer profiles, `_calculate_match_score` equals the
reference formula of the spec (with ratio 1 when the subject has 0 followers),
and the score always lies in `[0, 100]`. -/
theorem c5_match_score_formula_and_bounds :
    ∀ u p : ProfileData,
      calculate_match_score u p =
        match_score_spec u.grok_profile.primary_niche p.grok_profile.primary_niche
          u.grok_profile.secondary_topics p.grok_profile.secondary_topics
          u.basic_metrics.followers_count p.basic_metrics.followers_count
          p.grok_profile.estimated_monthly_follower_growth_percent ∧
      0 ≤ calculate_match_score u p ∧ calculate_match_score u p ≤ 100 := by
  intro u p
  have heq : calculate_match_score u p =
      match_score_spec u.grok_profile.primary_niche p.grok_profile.primary_niche
        u.grok_profile.secondary_topics p.grok_profile.secondary_topics
        u.basic_metrics.followers_count p.basic_metrics.followers_count
        p.grok_profile.estimated_monthly_follower_growth_percent := by
    unfold calculate_match_score match_score_spec
    rcases Nat.eq_zero_or_pos u.basic_metrics.followers_count with h | h
    · simp [h]
    · simp [h, Nat.pos_iff_ne_zero.mp h]
  refine ⟨heq, ?_⟩
  unfold calculate_match_score
  exact min_hundred_bounds _ _ _ _
    (by split_ifs <;> norm_num)
    (le_min (by positivity) (by norm_num))
    (by split_ifs <;> norm_num)
    (by split_ifs <;> norm_num)

/-! ## C1 and C8: properties of `find_peers` -/

theorem validate_candidate_spec (env : Env) (upd : ProfileData) (h : String)
    (p : ProfileData) (hv : validate_candidate env upd h = some p) :
    p.handle = h ∧
    (upd.basic_metrics.followers_count : ℚ) * 0.8 ≤ (p.basic_metrics.followers_count : ℚ) ∧
    (p.basic_metrics.followers_count : ℚ) ≤ (upd.basic_metrics.followers_count : ℚ) * 3 ∧
    5 ≤ (env.getUserTweets h 20).length := by
  unfold validate_candidate at hv
  cases hud : env.getUserByHandle h with
  | none => simp [hud] at hv
  | some ud =>
    rw [hud] at hv
    simp only at hv
    by_cases hw : ((ud.followers_count : ℚ) < (upd.basic_metrics.followers_count : ℚ) * 0.8 ∨
        (upd.basic_metrics.followers_count : ℚ) * 3 < (ud.followers_count : ℚ))
    · simp [hw] at hv
    · rw [if_neg hw] at hv
      push_neg at hw
      by_cases htw : (env.getUserTweets h 20).length < 5
      · simp [htw] at hv
      · rw [if_neg htw] at hv
        cases hg : env.analyzeGrok h ud (env.getUserTweets h 20) with
        | error e => simp [hg] at hv
        | ok g =>
          rw [hg] at hv
          simp only [Option.some.injEq] at hv
          subst hv
          exact ⟨rfl, hw.1, hw.2, le_of_not_lt htw⟩

theorem mem_find_peers (env : Env) (upd : ProfileData) (count : Nat)
    (excluded : List String) (p : ProfileData)
    (hp : p ∈ find_peers env upd count excluded) :
    ∃ h, h ∈ find_peers_candidates env upd count excluded ∧
      validate_candidate env upd h = some p := by
  have heq : find_peers env upd count excluded =
      sort_peers_desc (((find_peers_candidates env upd count excluded).filterMap
        (validate_candidate env upd)).take count) :=
    validate_stage_eq env upd count _
  rw [heq] at hp
  have hp2 := (sort_peers_desc_perm _).mem_iff.mp hp
  have hp3 := List.mem_of_mem_take hp2
  exact List.mem_filterMap.mp hp3

/-- C1: every peer returned by `find_peers` has a follower count inside
`[0.8 × subject, 3.0 × subject]`, had at least 5 recent posts fetched, and its
lowercased handle is not in the exclusion set passed in. -/
theorem c1_returned_peer_invariants :
    ∀ (env : Env) (upd : ProfileData) (count : Nat) (excluded : List String)
      (p : ProfileData), p ∈ find_peers env upd count excluded →
      0.8 * (upd.basic_metrics.followers_count : ℚ) ≤ (p.basic_metrics.followers_count : ℚ) ∧
      (p.basic_metrics.followers_count : ℚ) ≤ 3 * (upd.basic_metrics.followers_count : ℚ) ∧
      5 ≤ (env.getUserTweets p.handle 20).length ∧
      pyLower p.handle ∉ excluded := by
  intro env upd count excluded p hp
  rcases mem_find_peers env upd count excluded p hp with ⟨h, hcand, hv⟩
  rcases validate_candidate_spec env upd h p hv with ⟨hhandle, h1, h2, h3⟩
  have hfilt := List.mem_filter.mp hcand
  have hnotmem : pyLower h ∉ excluded := by
    have := hfilt.2
    simpa using this
  subst hhandle
  exact ⟨by linarith [h1], by linarith [h2], h3, hnotmem⟩

/-- C8: `find_peers` validates candidates in list order and stops at `count`
(the survivors are exactly the first `count` validated candidates, and extra
candidates after the early stop cannot change the result), and the returned
list is those peers sorted by descending match score, of length at most
`count`. -/
theorem c8_order_earlystop_sort :
    (∀ (env : Env) (upd : ProfileData) (count : Nat) (excluded : List String),
       find_peers env upd count excluded =
         sort_peers_desc (((find_peers_candidates env upd count excluded).filterMap
           (validate_candidate env upd)).take count)) ∧
    (∀ (env : Env) (upd : ProfileData) (count : Nat) (excluded : List String),
       (find_peers env upd count excluded).Pairwise
         (fun a b => b.match_score ≤ a.match_score)) ∧
    (∀ (env : Env) (upd : ProfileData) (count : Nat) (excluded : List String),
       (find_peers env upd count excluded).length ≤ count) ∧
    (∀ (env : Env) (upd : ProfileData) (count : Nat) (excluded : List String),
       List.Perm (find_peers env upd count excluded)
         (((find_peers_candidates env upd count excluded).filterMap
           (validate_candidate env upd)).take count)) ∧
    (∀ (env : Env) (upd : ProfileData) (count : Nat) (handles extra : List String),
       count ≤ ((handles.filterMap (validate_candidate env upd)).length) →
       validate_stage env upd count (handles ++ extra) =
         validate_stage env upd count handles) := by
  refine ⟨?_, ?_, ?_, ?_, ?_⟩
  · intro env upd count excluded
    exact validate_stage_eq env upd count _
  · intro env upd count excluded
    rw [show find_peers env upd count excluded = sort_peers_desc
        (((find_peers_candidates env upd count excluded).filterMap
          (validate_candidate env upd)).take count) from validate_stage_eq env upd count _]
    exact sort_peers_desc_pairwise _
  · intro env upd count excluded
    rw [show find_peers env upd count excluded = sort_peers_desc
        (((find_peers_candidates env upd count excluded).filterMap
          (validate_candidate env upd)).take count) from validate_stage_eq env upd count _]
    have h1 := (sort_peers_desc_perm (((find_peers_candidates env upd count
      excluded).filterMap (validate_candidate env upd)).take count)).length_eq
    rw [h1]
    simpa using Nat.min_le_left _ _
  · intro env upd count excluded
    rw [show find_peers env upd count excluded = sort_peers_desc
        (((find_peers_candidates env upd count excluded).filterMap
          (validate_candidate env upd)).take count) from validate_stage_eq env upd count _]
    exact sort_peers_desc_perm _
  · intro env upd count handles extra hlen
    rw [validate_stage_eq, validate_stage_eq, List.filterMap_append,
      List.take_append_of_le_length hlen]

/-! ### Concrete witness data -/

/-- Witness grok blob. -/
def grokW : GrokProfile := { primary_niche := "ai" }

/-- Witness subject profile (0 followers, so every component of the score and
window is decidable with small numbers). -/
def updW : ProfileData :=
  { handle := "subject", basic_metrics := { followers_count := 0 }, grok_profile := grokW }

/-- Witness environment: one suggested candidate that validates. -/
def envW1 : Env :=
  { suggest := fun _ _ _ => .ok ["peera"]
    getUserByHandle := fun _ => some { followers_count := 0 }
    getUserTweets := fun _ _ => List.replicate 5 {}
    analyzeGrok := fun _ _ _ => .ok grokW
    analyzeUserFromHandle := fun _ => .error ()
    peerGrok := fun _ _ _ => .error ()
    insightsJson := fun _ _ _ => .error () }

/-- The peer profile `validate_candidate` builds for the witness candidate,
before match fields are attached. -/
def peerBaseW : ProfileData :=
  { handle := "peera", basic_metrics := { followers_count := 0 }, grok_profile := grokW }

/-- The validated witness peer. -/
def peerValW : ProfileData :=
  { peerBaseW with
    match_score := 60
    match_reason := generate_match_reason updW peerBaseW
    growth_edge := generate_growth_edge peerBaseW }

theorem scoreW_eval : calculate_match_score updW peerBaseW = 60 := by
  have hcs : containsSub (pyLower "ai") (pyLower "ai") = true := rfl
  simp only [calculate_match_score, updW, peerBaseW, grokW]
  norm_num [hcs]

theorem validate_candidate_eq_some (env : Env) (upd : ProfileData) (h : String)
    (ud : UserData) (g : GrokProfile)
    (hud : env.getUserByHandle h = some ud)
    (hw : ¬((ud.followers_count : ℚ) < (upd.basic_metrics.followers_count : ℚ) * 0.8 ∨
        (upd.basic_metrics.followers_count : ℚ) * 3 < (ud.followers_count : ℚ)))
    (htw : ¬((env.getUserTweets h 20).length < 5))
    (hg : env.analyzeGrok h ud (env.getUserTweets h 20) = .ok g) :
    validate_candidate env upd h =
      some { handle := h
             basic_metrics := { followers_count := ud.followers_count }
             grok_profile := g
             match_score := calculate_match_score upd
               { handle := h, basic_metrics := { followers_count := ud.followers_count },
                 grok_profile := g }
             match_reason := generate_match_reason upd
               { handle := h, basic_metrics := { followers_count := ud.followers_count },
                 grok_profile := g }
             growth_edge := generate_growth_edge
               { handle := h, basic_metrics := { followers_count := ud.followers_count },
                 grok_profile := g } } := by
  unfold validate_candidate
  rw [hud]
  simp only [if_neg hw, if_neg htw, hg]

theorem validate_peera_eval :
    validate_candidate envW1 updW "peera" = some peerValW := by
  have hstep := validate_candidate_eq_some envW1 updW "peera"
    { followers_count := 0 } grokW rfl (by norm_num [updW]) (by norm_num [envW1]) rfl
  rw [hstep]
  show some { peerBaseW with
      match_score := calculate_match_score updW peerBaseW
      match_reason := generate_match_reason updW peerBaseW
      growth_edge := generate_growth_edge peerBaseW } = some peerValW
  rw [scoreW_eval]
  rfl

theorem find_peers_w1_eval : find_peers envW1 updW 5 [] = [peerValW] := by
  have hstage : find_peers envW1 updW 5 [] = validate_stage envW1 updW 5
      (find_peers_candidates envW1 updW 5 []) := rfl
  have hcands : find_peers_candidates envW1 updW 5 [] = ["peera"] := rfl
  rw [hstage, hcands]
  unfold validate_stage
  rw [show collectValidated (validate_candidate envW1 updW) 5 ["peera"] 0 =
      [peerValW] by
    unfold collectValidated
    rw [validate_peera_eval]
    simp [collectValidated]]
  simp [sort_peers_desc, insert_peer_desc]

/-- Witness for C1: the peer validated by the concrete environment satisfies
the window, post-count and exclusion invariants. -/
theorem c1_returned_peer_invariants_witness :
    0.8 * ((updW.basic_metrics.followers_count : ℚ)) ≤
      (peerValW.basic_metrics.followers_count : ℚ) ∧
    (peerValW.basic_metrics.followers_count : ℚ) ≤
      3 * (updW.basic_metrics.followers_count : ℚ) ∧
    5 ≤ (envW1.getUserTweets peerValW.handle 20).length ∧
    pyLower peerValW.handle ∉ ([] : List String) :=
  c1_returned_peer_invariants envW1 updW 5 [] peerValW
    (by rw [find_peers_w1_eval]; exact List.mem_singleton_self _)

/-- Witness for C8: with one validated candidate already collected and
`count = 1`, appending further candidates does not change the result. -/
theorem c8_order_earlystop_sort_witness :
    validate_stage envW1 updW 1 (["peera"] ++ ["zzz"]) =
      validate_stage envW1 updW 1 ["peera"] :=
  c8_order_earlystop_sort.2.2.2.2 envW1 updW 1 ["peera"] ["zzz"]
    (by simp [List.filterMap_cons, validate_peera_eval])

/-! ## C9: the static fallback table -/

theorem find_first_match {α : Type} (f : α → Bool) (pre post : List α) (x : α)
    (hpre : ∀ y ∈ pre, f y = false) (hx : f x = true) :
    List.find? f (pre ++ x :: post) = some x := by
  induction pre with
  | nil => simp [List.find?_cons, hx]
  | cons y t ih =>
    have hy := hpre y (List.mem_cons_self _ _)
    simp only [List.cons_append, List.find?_cons, hy]
    exact ih (fun z hz => hpre z (List.mem_cons_of_mem _ hz))

/-- C9: when the completion call for candidate suggestions fails, the sourcer
returns the static fallback — a pure function of the niche and the exclusion
set, with no environment argument (so it is deterministic, makes no external
call and cannot raise); the fallback keeps at most 10 handles, drops excluded
handles case-insensitively, and the first table key that is a substring of the
lowercased niche wins. -/
theorem c9_fallback_on_failure :
    (∀ (env : Env) (upd : ProfileData) (count : Nat) (excluded : List String) (e : Unit),
       env.suggest upd count excluded = .error e →
       get_peer_suggestions_from_grok env upd count excluded =
         get_fallback_suggestions upd.grok_profile.primary_niche
           upd.basic_metrics.followers_count excluded) ∧
    (∀ (niche : String) (f : Nat) (excluded : List String),
       (get_fallback_suggestions niche f excluded).length ≤ 10 ∧
       ∀ h ∈ get_fallback_suggestions niche f excluded, pyLower h ∉ excluded) ∧
    (∀ (niche : String) (f : Nat) (excluded : List String) (key : String)
       (accounts : List String) (pre post : List (String × List String)),
       niche_accounts = pre ++ (key, accounts) :: post →
       (∀ kv ∈ pre, containsSub (pyLower niche) kv.1 = false) →
       containsSub (pyLower niche) key = true →
       get_fallback_suggestions niche f excluded =
         (accounts.filter (fun a => !(excluded.contains (pyLower a)))).take 10) := by
  refine ⟨?_, ?_, ?_⟩
  · intro env upd count excluded e herr
    unfold get_peer_suggestions_from_grok
    rw [herr]
  · intro niche f excluded
    simp only [get_fallback_suggestions]
    cases hfind : niche_accounts.find? (fun kv => containsSub (pyLower niche) kv.1) with
    | none =>
      constructor
      · simpa using Nat.min_le_left _ _
      · intro h hh
        have h1 := List.mem_filter.mp (List.mem_of_mem_take hh)
        simpa using h1.2
    | some kv =>
      constructor
      · simpa using Nat.min_le_left _ _
      · intro h hh
        have h1 := List.mem_filter.mp (List.mem_of_mem_take hh)
        simpa using h1.2
  · intro niche f excluded key accounts pre post htable hpre hkey
    simp only [get_fallback_suggestions]
    rw [htable, find_first_match (fun kv => containsSub (pyLower niche) kv.1) pre post
      (key, accounts) hpre hkey]

/-- Witness subject profile for the fallback witness (niche `fintech`). -/
def updW9 : ProfileData :=
  { handle := "s", basic_metrics := { followers_count := 0 },
    grok_profile := { primary_niche := "fintech" } }

/-- Witness environment whose suggestion call fails. -/
def envW9 : Env :=
  { suggest := fun _ _ _ => .error ()
    getUserByHandle := fun _ => none
    getUserTweets := fun _ _ => []
    analyzeGrok := fun _ _ _ => .error ()
    analyzeUserFromHandle := fun _ => .error ()
    peerGrok := fun _ _ _ => .error ()
    insightsJson := fun _ _ _ => .error () }

/-- Witness for C9: `fintech` does not match `finance` but matches `tech`
(the second table entry), exercising the failure fallback and first-match
order; the excluded handle `wired` is dropped case-insensitively. -/
theorem c9_fallback_on_failure_witness :
    get_peer_suggestions_from_grok envW9 updW9 5 ["wired"] =
      get_fallback_suggestions "fintech" 0 ["wired"] ∧
    get_fallback_suggestions "fintech" 0 ["wired"] =
      ((niche_accounts.get ⟨1, by norm_num [niche_accounts]⟩).2.filter
        (fun a => !((["wired"].contains (pyLower a))))).take 10 := by
  constructor
  · exact c9_fallback_on_failure.1 envW9 updW9 5 ["wired"] () rfl
  · exact c9_fallback_on_failure.2.2 "fintech" 0 ["wired"] "tech"
      (niche_accounts.get ⟨1, by norm_num [niche_accounts]⟩).2
      [niche_accounts.get ⟨0, by norm_num [niche_accounts]⟩]
      (niche_accounts.drop 2) rfl
      (by intro kv hkv
          simp only [List.mem_singleton] at hkv
          subst hkv
          rfl)
      rfl

/-! ## C4: the cached-profile fast path -/

/-- C4: with `force_refresh_profile=false` and a cached profile whose expiry
is in the future, the profile step returns exactly the dict rebuilt from the
cached row, leaves the session untouched, and its result does not depend on
the environment at all (zero external calls). -/
theorem c4_cached_profile_reused :
    ∀ (env env2 : Env) (now : Int) (s : Session) (user : UserRow)
      (cached : UserProfileRow),
      latest_profile_row s.durable user.id = some cached →
      now < cached.expires_at →
      get_or_create_user_profile env now s user false =
        .ok (profile_from_cache user cached, s) ∧
      get_or_create_user_profile env now s user false =
        get_or_create_user_profile env2 now s user false := by
  intro env env2 now s user cached hlatest hnow
  have h1 : ∀ e : Env, get_or_create_user_profile e now s user false =
      .ok (profile_from_cache user cached, s) := by
    intro e
    unfold get_or_create_user_profile
    simp only [Bool.false_eq_true, if_false, hlatest, if_pos hnow]
  exact ⟨h1 env, (h1 env).trans (h1 env2).symm⟩

/-- Witness user row. -/
def userW : UserRow := { id := 1, x_handle := "subject" }

/-- Witness cached profile row (expires at hour 10). -/
def profRowW : UserProfileRow :=
  { id := 7, user_id := 1, followers_count := 5000, following_count := 10,
    tweet_count := 3, grok_profile := grokW, niche := "ai",
    content_style := .obj [], avg_engagement_rate := 0, growth_30d := 0,
    analyzed_at := 0, expires_at := 10 }

/-- Witness database with one user and one non-expired cached profile. -/
def dbW4 : DB := { users := [userW], user_profiles := [profRowW], nextId := 8 }

/-- Witness for C4: at hour 5 the cached row (expiry 10) is reused verbatim
under two different environments. -/
theorem c4_cached_profile_reused_witness :
    get_or_create_user_profile envW1 5 (Session.init dbW4) userW false =
      .ok (profile_from_cache userW profRowW, Session.init dbW4) ∧
    get_or_create_user_profile envW1 5 (Session.init dbW4) userW false =
      get_or_create_user_profile envW9 5 (Session.init dbW4) userW false :=
  c4_cached_profile_reused envW1 envW9 5 (Session.init dbW4) userW profRowW rfl
    (by decide)

/-! ## C10: `force_refresh_peers` is dead -/

/-- C10: two runs that differ only in `force_refresh_peers` are identical in
result, persisted state and observable calls — the flag is accepted but never
read. -/
theorem c10_force_refresh_peers_ignored :
    ∀ (env : Env) (now : Int) (db : DB) (user_id : Nat) (fp : Bool),
      run_full_analysis env now db user_id fp true =
        run_full_analysis env now db user_id fp false := by
  intro env now db user_id fp
  rfl

/-! ## C2: the exclusion set -/

theorem insert_peer_row_desc_perm (q : PeerMatchRow) (l : List PeerMatchRow) :
    List.Perm (insert_peer_row_desc q l) (q :: l) := by
  induction l with
  | nil => simp [insert_peer_row_desc]
  | cons r t ih =>
    by_cases hc : q.created_at < r.created_at
    · simp only [insert_peer_row_desc, if_pos hc]
      exact (ih.cons r).trans (List.Perm.swap q r t)
    · simp only [insert_peer_row_desc, if_neg hc]
      exact List.Perm.refl _

theorem sort_peer_rows_perm (l : List PeerMatchRow) :
    List.Perm (l.foldr insert_peer_row_desc []) l := by
  induction l with
  | nil => simp
  | cons r t ih =>
    have h1 : (r :: t).foldr insert_peer_row_desc [] =
        insert_peer_row_desc r (t.foldr insert_peer_row_desc []) := rfl
    rw [h1]
    exact (insert_peer_row_desc_perm r (t.foldr insert_peer_row_desc [])).trans (ih.cons r)

/-- The database of the C2 counterexample: 21 historical peer-match rows
`h0 … h20` for subject 1, with increasing creation times. -/
def dbW2 : DB :=
  { users := [userW]
    peer_matches := (List.range 21).map (fun i =>
      { user_id := 1, peer_handle := "h" ++ toString i, peer_followers := 0,
        match_score := 0, match_reason := "", growth_edge := "",
        created_at := (i : Int), expires_at := (i : Int) + 24 })
    nextId := 0 }

/-- Counterexample to C2: with 21 historical rows, the handle of the oldest
row (`h0`) is a historical peer handle but is NOT in the exclusion set the
service computes — the query reads only the 20 most recent rows. -/
theorem c2_exclusion_counterexample :
    "h0" ∈ ((dbW2.peer_matches.filter (fun r => r.user_id == 1)).map
      (fun r => pyLower r.peer_handle)) ∧
    "h0" ∉ excluded_handles_for dbW2 1 := by
  constructor
  · decide
  · decide

/-- C2 amended: the exclusion set a run passes to the sourcer is
`excluded_handles_for` of the pre-run store — the lowercased handles of the
**20 most recently created** historical rows, not of all of them.  It is
always a subset of the full lowercased history; it equals the full history
exactly while the subject has at most 20 rows, and under that bound it grows
monotonically across runs that only add rows. -/
theorem c2_exclusion_amended :
    (∀ (env : Env) (now : Int) (s : Session) (user : UserRow)
       (upd : ProfileData) (f : Bool),
       ((get_or_create_peers env now s user upd f).2.2).head? =
         some (excluded_handles_for s.durable user.id)) ∧
    (∀ (db : DB) (uid : Nat) (h : String), h ∈ excluded_handles_for db uid →
       h ∈ ((db.peer_matches.filter (fun r => r.user_id == uid)).map
         (fun r => pyLower r.peer_handle))) ∧
    (∀ (db : DB) (uid : Nat),
       (db.peer_matches.filter (fun r => r.user_id == uid)).length ≤ 20 →
       ∀ h, h ∈ excluded_handles_for db uid ↔
         h ∈ ((db.peer_matches.filter (fun r => r.user_id == uid)).map
           (fun r => pyLower r.peer_handle))) ∧
    (∀ (db db2 : DB) (uid : Nat),
       (db2.peer_matches.filter (fun r => r.user_id == uid)).length ≤ 20 →
       (∀ r, r ∈ db.peer_matches → r ∈ db2.peer_matches) →
       ∀ h, h ∈ excluded_handles_for db uid → h ∈ excluded_handles_for db2 uid) := by
  have hsubset : ∀ (db : DB) (uid : Nat) (h : String),
      h ∈ excluded_handles_for db uid →
      h ∈ ((db.peer_matches.filter (fun r => r.user_id == uid)).map
        (fun r => pyLower r.peer_handle)) := by
    intro db uid h hh
    have h1 := List.mem_dedup.mp hh
    rcases List.mem_map.mp h1 with ⟨r, hr, hpy⟩
    have h2 : r ∈ (db.peer_matches.filter
        (fun x => x.user_id == uid)).foldr insert_peer_row_desc [] :=
      List.mem_of_mem_take hr
    have h3 : r ∈ db.peer_matches.filter (fun x => x.user_id == uid) :=
      (sort_peer_rows_perm _).mem_iff.mp h2
    exact List.mem_map.mpr ⟨r, h3, hpy⟩
  have hiff : ∀ (db : DB) (uid : Nat),
      (db.peer_matches.filter (fun r => r.user_id == uid)).length ≤ 20 →
      ∀ h, h ∈ excluded_handles_for db uid ↔
        h ∈ ((db.peer_matches.filter (fun r => r.user_id == uid)).map
          (fun r => pyLower r.peer_handle)) := by
    intro db uid hlen h
    have hslen : ((db.peer_matches.filter
        (fun r => r.user_id == uid)).foldr insert_peer_row_desc []).length ≤ 20 := by
      rw [(sort_peer_rows_perm _).length_eq]
      exact hlen
    have htake : ((db.peer_matches.filter
        (fun r => r.user_id == uid)).foldr insert_peer_row_desc []).take 20 =
        (db.peer_matches.filter (fun r => r.user_id == uid)).foldr insert_peer_row_desc [] :=
      List.take_of_length_le hslen
    unfold excluded_handles_for previous_peer_rows
    rw [htake, List.mem_dedup]
    exact ((sort_peer_rows_perm _).map (fun r => pyLower r.peer_handle)).mem_iff
  refine ⟨?_, hsubset, hiff, ?_⟩
  · intro env now s user upd f
    simp only [get_or_create_peers]
    split <;> rfl
  · intro db db2 uid hlen2 hmono h hh
    have h1 := hsubset db uid h hh
    rcases List.mem_map.mp h1 with ⟨r, hr, hpy⟩
    have hr1 := List.mem_filter.mp hr
    have hr2 : r ∈ db2.peer_matches.filter (fun x => x.user_id == uid) :=
      List.mem_filter.mpr ⟨hmono r hr1.1, hr1.2⟩
    exact (hiff db2 uid hlen2 h).mpr (List.mem_map.mpr ⟨r, hr2, hpy⟩)

/-- Single historical peer row for the C2 witness. -/
def rowW2s : PeerMatchRow :=
  { user_id := 1, peer_handle := "OldPeer", peer_followers := 0, match_score := 0,
    match_reason := "", growth_edge := "", created_at := 0, expires_at := 24 }

/-- Small database for the C2 witness: one historical row. -/
def dbW2s : DB := { users := [userW], peer_matches := [rowW2s], nextId := 0 }

/-- Witness for C2 (amended): with at most 20 rows the exclusion set is
exactly the lowercased full history. -/
theorem c2_exclusion_amended_witness :
    "oldpeer" ∈ excluded_handles_for dbW2s 1 ↔
      "oldpeer" ∈ ((dbW2s.peer_matches.filter (fun r => r.user_id == 1)).map
        (fun r => pyLower r.peer_handle)) :=
  c2_exclusion_amended.2.2.1 dbW2s 1 (by decide) "oldpeer"

/-! ## Run-level lemmas for C3, C6, C7 -/

theorem commit_analyses (s : Session) (h : s.pendingAnalyses = []) :
    (Session.commit s).durable.analyses = s.durable.analyses := by
  simp [Session.commit, h]

theorem profile_step_state (env : Env) (now : Int) (s : Session) (user : UserRow)
    (f : Bool) (upd : ProfileData) (s1 : Session)
    (hp : s.pendingAnalyses = [])
    (hok : get_or_create_user_profile env now s user f = .ok (upd, s1)) :
    s1.durable.analyses = s.durable.analyses ∧ s1.pendingAnalyses = [] := by
  unfold get_or_create_user_profile at hok
  have hfresh : ∀ (upd2 : ProfileData) (s2 : Session),
      build_fresh_profile env now s user = .ok (upd2, s2) →
      s2.durable.analyses = s.durable.analyses ∧ s2.pendingAnalyses = [] := by
    intro upd2 s2 hb
    unfold build_fresh_profile at hb
    cases ha : env.analyzeUserFromHandle user.x_handle with
    | error e => rw [ha] at hb; exact absurd hb (by simp)
    | ok pd =>
      rw [ha] at hb
      simp only [Except.ok.injEq, Prod.mk.injEq] at hb
      rw [← hb.2]
      constructor
      · simp [Session.commit, hp]
      · simp [Session.commit]
  split at hok
  · split at hok
    · simp only [Except.ok.injEq, Prod.mk.injEq] at hok
      rw [← hok.2]
      exact ⟨rfl, hp⟩
    · exact hfresh upd s1 hok
  · exact hfresh upd s1 hok

theorem peers_step_state (env : Env) (now : Int) (s : Session) (user : UserRow)
    (upd : ProfileData) (f : Bool) (hp : s.pendingAnalyses = []) :
    ((get_or_create_peers env now s user upd f).2.1).durable.analyses =
      s.durable.analyses ∧
    ((get_or_create_peers env now s user upd f).2.1).pendingAnalyses = [] := by
  simp only [get_or_create_peers]
  constructor
  · simp [Session.commit, hp]
  · simp [Session.commit]

theorem run_error_analyses_eq (env : Env) (now : Int) (db : DB) (uid : Nat)
    (f1 f2 : Bool) (e : Err)
    (herr : (run_full_analysis env now db uid f1 f2).1 = .error e) :
    (run_full_analysis env now db uid f1 f2).2.1.analyses = db.analyses := by
  dsimp only [run_full_analysis] at herr ⊢
  revert herr
  cases hfind : db.users.find? (fun u => u.id == uid) with
  | none => intro _; rfl
  | some user =>
    try dsimp only
    cases hprof : get_or_create_user_profile env now (Session.init db) user f1 with
    | error e2 => intro _; rfl
    | ok pr =>
      obtain ⟨upd, s1⟩ := pr
      try dsimp only
      have hs1 := profile_step_state env now (Session.init db) user f1 upd s1 rfl hprof
      have hs2 := peers_step_state env now s1 user upd f2 hs1.2
      cases hins : generate_insights env upd
          ((get_or_create_peers env now s1 user upd f2).1.map
            (fun p => { p with peer_insights := some (analyze_peer env upd p) })) 3 with
      | error e3 =>
        intro _
        exact hs2.1.trans hs1.1
      | ok ins =>
        intro herr2
        exact Except.noConfusion herr2

/-! ## C3: atomicity at the persistence boundary -/

/-- The profile the modelled profiler returns for the counterexample and
witness environments. -/
def freshProfW : ProfileData :=
  { handle := "subject", basic_metrics := { followers_count := 0 }, grok_profile := grokW }

/-- Environment for the C3 counterexample: profile building succeeds, peer
sourcing finds nothing, insight synthesis fails. -/
def envW3 : Env :=
  { suggest := fun _ _ _ => .ok []
    getUserByHandle := fun _ => none
    getUserTweets := fun _ _ => []
    analyzeGrok := fun _ _ _ => .error ()
    analyzeUserFromHandle := fun _ => .ok freshProfW
    peerGrok := fun _ _ _ => .error ()
    insightsJson := fun _ _ _ => .error () }

/-- Database for the C3 counterexample: one user, nothing else. -/
def dbW3 : DB := { users := [userW], nextId := 0 }

/-- Counterexample to C3: a run that fails at insight synthesis (after the
subject was resolved) leaves the freshly committed profile row in the durable
store — the persistent state is NOT rolled back to the pre-run state. -/
theorem c3_rollback_counterexample :
    (run_full_analysis envW3 0 dbW3 1 false false).1 = .error .externalError ∧
    ((run_full_analysis envW3 0 dbW3 1 false false).2.1.user_profiles).length = 1 ∧
    (dbW3.user_profiles).length = 0 ∧
    (run_full_analysis envW3 0 dbW3 1 false false).2.1 ≠ dbW3 := by
  refine ⟨rfl, rfl, rfl, ?_⟩
  intro h
  have h1 : ((run_full_analysis envW3 0 dbW3 1 false false).2.1.user_profiles).length = 1 := rfl
  rw [h] at h1
  simp [dbW3] at h1

/-- C3 amended: the rollback on failure discards only the uncommitted writes
of the failing step; rows committed by earlier steps (the fresh profile row,
the peer batch) persist, but a failed run never persists an Analysis row. -/
theorem c3_rollback_amended :
    ∀ (env : Env) (now : Int) (db : DB) (uid : Nat) (f1 f2 : Bool) (e : Err),
      (run_full_analysis env now db uid f1 f2).1 = .error e →
      (run_full_analysis env now db uid f1 f2).2.1.analyses = db.analyses :=
  fun env now db uid f1 f2 e h => run_error_analyses_eq env now db uid f1 f2 e h

/-- Witness for C3 (amended): the failing run of the counterexample
environment persists no Analysis row. -/
theorem c3_rollback_amended_witness :
    (run_full_analysis envW3 0 dbW3 1 false false).2.1.analyses = dbW3.analyses :=
  c3_rollback_amended envW3 0 dbW3 1 false false .externalError rfl

/-! ## C6: the zero-peer retry -/

/-- C6: if the first sourcing call (with the store-derived exclusion set)
returns zero peers, the run makes exactly one retry with an empty exclusion
set; if the retry also returns zero peers the run proceeds and Insight
Synthesis is invoked with an empty peer array. -/
theorem c6_zero_peer_retry :
    ∀ (env : Env) (now : Int) (db : DB) (uid : Nat) (f1 f2 : Bool)
      (user : UserRow) (upd : ProfileData) (s1 : Session),
      db.users.find? (fun u => u.id == uid) = some user →
      get_or_create_user_profile env now (Session.init db) user f1 = .ok (upd, s1) →
      find_peers env upd 5 (excluded_handles_for s1.durable user.id) = [] →
      (run_full_analysis env now db uid f1 f2).2.2.sourceCalls =
        [excluded_handles_for s1.durable user.id, []] ∧
      (find_peers env upd 5 [] = [] →
        (run_full_analysis env now db uid f1 f2).2.2.insightsCalls.map Prod.snd =
          [[]]) := by
  intro env now db uid f1 f2 user upd s1 hfind hprof hfp1
  dsimp only [run_full_analysis]
  rw [hfind]
  try dsimp only
  rw [hprof]
  try dsimp only
  have hpeers : get_or_create_peers env now s1 user upd f2 =
      (find_peers env upd 5 [],
       Session.commit { s1 with pendingPeers := s1.pendingPeers ++
         (find_peers env upd 5 []).map (peer_row_of user.id now) },
       [excluded_handles_for s1.durable user.id, []]) := by
    dsimp only [get_or_create_peers]
    rw [hfp1]
    simp
  rw [hpeers]
  try dsimp only
  cases hins : generate_insights env upd
      ((find_peers env upd 5 []).map
        (fun p => { p with peer_insights := some (analyze_peer env upd p) })) 3 with
  | error e3 =>
    try dsimp only
    refine ⟨rfl, ?_⟩
    intro hfp2
    rw [hfp2]
    rfl
  | ok ins =>
    try dsimp only
    refine ⟨rfl, ?_⟩
    intro hfp2
    rw [hfp2]
    rfl

/-- The profile/session pair the profile step produces in the C6 witness
configuration. -/
def runProfW : ProfileData × Session :=
  match get_or_create_user_profile envW3 0 (Session.init dbW3) userW false with
  | .ok pr => pr
  | .error _ => (freshProfW, Session.init dbW3)

/-- Witness for C6: both sourcing calls of the concrete run return zero
peers; the trace shows the exact two exclusion sets used and the empty peer
array handed to insight synthesis. -/
theorem c6_zero_peer_retry_witness :
    (run_full_analysis envW3 0 dbW3 1 false false).2.2.sourceCalls =
      [excluded_handles_for runProfW.2.durable userW.id, []] ∧
    (run_full_analysis envW3 0 dbW3 1 false false).2.2.insightsCalls.map Prod.snd =
      [[]] := by
  have h := c6_zero_peer_retry envW3 0 dbW3 1 false false userW runProfW.1 runProfW.2
    rfl rfl rfl
  exact ⟨h.1, h.2 rfl⟩

/-! ## C7: the insight-synthesis response validation -/

/-- A structurally invalid insight-synthesis response, as the claim describes
it: no `growth_score` key, or no `insights` key, or an `insights` value that
is an empty array or not an array at all. -/
def bad_insights_response (r : Json) : Prop :=
  r.getKey? "growth_score" = none ∨ r.getKey? "insights" = none ∨
  (∀ xs, r.getKey? "insights" = some (.arr xs) → xs = [])

theorem validate_response_false_of_bad (r : Json)
    (hb : bad_insights_response r) : validate_response r = false := by
  unfold validate_response
  rcases hb with h | h | h
  · rw [h]
  · rw [h]
    cases r.getKey? "growth_score" <;> rfl
  · cases hg : r.getKey? "growth_score" with
    | none => cases r.getKey? "insights" <;> rfl
    | some g =>
      cases hi : r.getKey? "insights" with
      | none => rfl
      | some ins =>
        cases ins with
        | arr xs =>
          have hxs := h xs hi
          subst hxs
          rfl
        | null => rfl
        | bool b => rfl
        | num q => rfl
        | str s => rfl
        | obj fields => rfl

/-- C7: a completion response that is valid JSON but lacks `growth_score`,
lacks `insights`, or whose `insights` is empty or not a list makes
`generate_insights` raise the validation error; a run whose insight-synthesis
responses are all of that shape fails and persists no Analysis row. -/
theorem c7_invalid_insights_response :
    (∀ (env : Env) (upd : ProfileData) (peers : List ProfileData) (n : Nat) (r : Json),
       env.insightsJson upd (peers.take 5) n = .ok r →
       bad_insights_response r →
       generate_insights env upd peers n = .error .validationError) ∧
    (∀ (env : Env) (now : Int) (db : DB) (uid : Nat) (f1 f2 : Bool),
       (∀ u ps n r, env.insightsJson u ps n = .ok r → bad_insights_response r) →
       (∃ e, (run_full_analysis env now db uid f1 f2).1 = .error e) ∧
       (run_full_analysis env now db uid f1 f2).2.1.analyses = db.analyses) := by
  have hgen : ∀ (env : Env) (upd : ProfileData) (peers : List ProfileData) (n : Nat)
      (r : Json), env.insightsJson upd (peers.take 5) n = .ok r →
      bad_insights_response r →
      generate_insights env upd peers n = .error .validationError := by
    intro env upd peers n r hok hb
    dsimp only [generate_insights]
    rw [hok]
    try dsimp only
    rw [validate_response_false_of_bad r hb]
    rfl
  refine ⟨hgen, ?_⟩
  intro env now db uid f1 f2 hb
  have herr : ∃ e, (run_full_analysis env now db uid f1 f2).1 = .error e := by
    dsimp only [run_full_analysis]
    cases hfind : db.users.find? (fun u => u.id == uid) with
    | none => exact ⟨.notFound, rfl⟩
    | some user =>
      try dsimp only
      cases hprof : get_or_create_user_profile env now (Session.init db) user f1 with
      | error e2 => exact ⟨e2, rfl⟩
      | ok pr =>
        obtain ⟨upd, s1⟩ := pr
        try dsimp only
        cases hins : generate_insights env upd
            ((get_or_create_peers env now s1 user upd f2).1.map
              (fun p => { p with peer_insights := some (analyze_peer env upd p) })) 3 with
        | error e3 => exact ⟨e3, rfl⟩
        | ok ins =>
          exfalso
          dsimp only [generate_insights] at hins
          cases hj : env.insightsJson upd
              (((get_or_create_peers env now s1 user upd f2).1.map
                (fun p => { p with peer_insights := some (analyze_peer env upd p) })).take 5) 3 with
          | error e4 =>
            rw [hj] at hins
            exact absurd hins (by simp)
          | ok r =>
            rw [hj] at hins
            try dsimp only at hins
            rw [validate_response_false_of_bad r (hb _ _ _ _ hj)] at hins
            exact absurd hins (by simp)
  obtain ⟨e, he⟩ := herr
  exact ⟨⟨e, he⟩, run_error_analyses_eq env now db uid f1 f2 e he⟩

/-- Environment for the C7 witness: the insight-synthesis response is the
empty JSON object (valid JSON, no `growth_score`, no `insights`). -/
def envW7 : Env :=
  { suggest := fun _ _ _ => .ok []
    getUserByHandle := fun _ => none
    getUserTweets := fun _ _ => []
    analyzeGrok := fun _ _ _ => .error ()
    analyzeUserFromHandle := fun _ => .ok freshProfW
    peerGrok := fun _ _ _ => .error ()
    insightsJson := fun _ _ _ => .ok (.obj []) }

/-- Witness for C7: the empty-object response triggers the validation error,
and the concrete run fails without persisting an Analysis row. -/
theorem c7_invalid_insights_response_witness :
    generate_insights envW7 updW [] 3 = .error .validationError ∧
    (∃ e, (run_full_analysis envW7 0 dbW3 1 false false).1 = .error e) ∧
    (run_full_analysis envW7 0 dbW3 1 false false).2.1.analyses = dbW3.analyses := by
  have h1 := c7_invalid_insights_response.1 envW7 updW [] 3 (.obj []) rfl (Or.inl rfl)
  have h2 := c7_invalid_insights_response.2 envW7 0 dbW3 1 false false
    (by intro u ps n r hr
        have hr2 : Json.obj [] = r := by injection hr
        subst hr2
        exact Or.inl rfl)
  exact ⟨h1, h2.1, h2.2⟩
